import Mathlib

/-!
Verification development for the aws_hacks module
(src/aws_hacks/aws_hacks.py).

The module has four pure-ish facilities that the properties below concern:
script templating (make_start_script over the two module-level template
strings), an S3 download wrapper, an S3 upload wrapper (both with a
process-environment side effect keyed on the endpoint host), and a
command-line builder for a companion run_parallel script.

Shallow embedding conventions:
- Python strings are Lean String; byte contents of files/objects are
  List Nat.
- The process environment is modelled by the value of the single
  variable S3_USE_SIGV4 (an Option String); it is the only environment
  variable the module ever reads or writes.
- The external SDK (boto) is modelled by the fields of the world
  structures: which buckets exist, which keys hold which bytes, what
  byte count set_contents_from_file reports, and what os.fstat reports
  for a file descriptor.
- Python exceptions that escape the functions are modelled with Except.
-/

/-- Substring containment on lists of characters, the semantics of the
Python expression needle in hay for strings (an empty needle is always
contained). -/
def listContains (needle hay : List Char) : Bool :=
  match hay with
  | [] => needle.isEmpty
  | c :: t => needle.isPrefixOf (c :: t) || listContains needle t

/-- String-level substring test: strContains hay needle is the Python
expression needle in hay. -/
def strContains (hay needle : String) : Bool :=
  listContains needle.data hay.data

/-- Possible values of the host argument of download_from_s3: a Python
string, Python None, or an instance of boto.s3.connection.NoHostProvided
(the source checks for both of the latter before looking for the region
marker, lines 80-82). -/
inductive Host where
  | pyNone : Host
  | noHostProvided : Host
  | str : String → Host
deriving DecidableEq

/-- Region test of download_from_s3 (lines 80-83): the marker eu-central
is looked for only when host is a real string. -/
def download_switch_validation (host : Host) : Bool :=
  match host with
  | Host.str h => strContains h "eu-central"
  | _ => false

/-- Region test of upload_to_s3 (lines 128-130): only host is not None is
checked before looking for the marker eu-central. -/
def upload_switch_validation (host : Option String) : Bool :=
  match host with
  | some h => strContains h "eu-central"
  | none => false

/-- World state seen by download_from_s3: the objects of the store
(bucket name, key to bytes), the local filesystem (path to bytes) and
the current value of the environment variable S3_USE_SIGV4. -/
structure DownloadWorld where
  objects : String → String → Option (List Nat)
  files : String → Option (List Nat)
  env : Option String

/-- Observable outcome of download_from_s3: the returned boolean, the
value of S3_USE_SIGV4 right after the region toggle (lines 79-84), its
value when the call returns, and the resulting local filesystem. -/
structure DownloadOutcome where
  ret : Bool
  envDuring : Option String
  envAfter : Option String
  files : String → Option (List Nat)

/-- Embedding of download_from_s3 (lines 74-103).  The bucket is
resolved with validate=False, so resolution never fails; key existence
is the lookup in the world.  On the dry-run branch with an existing key
the source returns True directly (line 97), skipping the environment
cleanup of lines 101-102; the other two paths fall through to that
cleanup.  Credentials do not influence the modelled behaviour but are
kept for signature fidelity. -/
def download_from_s3 (w : DownloadWorld)
    (aws_access_key_id aws_secret_access_key : String)
    (bucket fname key : String) (dry_run : Bool) (host : Host) :
    DownloadOutcome :=
  let switch_validation : Bool := download_switch_validation host
  let env1 : Option String := if switch_validation then some "True" else w.env
  match w.objects bucket key with
  | some bytes =>
    if dry_run then
      { ret := true, envDuring := env1, envAfter := env1, files := w.files }
    else
      { ret := true
        envDuring := env1
        envAfter := if switch_validation then none else env1
        files := fun f => if f = fname then some bytes else w.files f }
  | none =>
      { ret := false
        envDuring := env1
        envAfter := if switch_validation then none else env1
        files := w.files }

/-- Python exceptions that can escape upload_to_s3 in the model. -/
inductive PyErr where
  | attributeError : PyErr
  | s3ResponseError : PyErr
  | ioError : PyErr
deriving DecidableEq

/-- Result of the attribute access fname.fileno() at line 141 when fname
is a string path (which it must be, since line 139 runs open(fname)):
Python str has no fileno method, so this always raises AttributeError. -/
def str_fileno (fname : String) : Except PyErr Nat :=
  Except.error PyErr.attributeError

/-- World state seen by upload_to_s3: the buckets that exist (get_bucket
is called with validate=True, line 133), the local filesystem, the value
of S3_USE_SIGV4, what os.fstat reports for a descriptor, and the byte
count that set_contents_from_file reports as sent. -/
structure UploadWorld where
  buckets : List String
  files : String → Option (List Nat)
  env : Option String
  fstatSize : Nat → Nat
  sentBytes : Nat

/-- Size computation of upload_to_s3, lines 140-146: try
os.fstat(fname.fileno()).st_size, and on any exception fall back to
fid.seek(0, SEEK_END); size = fid.tell(), which is the byte length of
the file contents. -/
def upload_size (w : UploadWorld) (fname : String) (contents : List Nat) : Nat :=
  match str_fileno fname with
  | Except.ok fd => w.fstatSize fd
  | Except.error _ => contents.length

/-- Observable outcome of upload_to_s3: the result (the returned boolean
or the escaping exception), the value of S3_USE_SIGV4 right after the
region toggle and at the moment the call ends, the size that was
measured for the success comparison (when that point is reached), the
position of the internally opened handle when the with-block ends
(line 151 rewinds it to 0), and whether that handle is closed once the
call has ended (the with-statement of line 139 always closes it). -/
structure UploadOutcome where
  result : Except PyErr Bool
  envDuring : Option String
  envAfter : Option String
  sizeMeasured : Option Nat
  finalHandlePos : Option Nat
  handleClosedAtReturn : Bool

/-- Embedding of upload_to_s3 (lines 106-158).  get_bucket with
validate=True raises when the bucket does not exist; open(fname) raises
when the path has no file; both exceptions escape before the cleanup of
lines 153-154, so on those paths the toggled environment value is left
as is.  On the normal path the size is measured (lines 140-146), the
SDK reports w.sentBytes as sent, the handle is rewound to 0 (line 151)
and closed, the environment is cleaned up (lines 153-154), and the call
returns sent == size (lines 156-158).  callback, md5,
reduced_redundancy and content_type only feed the SDK call or the
object metadata and have no modelled observable; credentials likewise
are kept only for signature fidelity. -/
def upload_to_s3 (w : UploadWorld)
    (aws_access_key_id aws_secret_access_key : String)
    (fname bucket key : String)
    (md5 : Option String) (reduced_redundancy : Bool)
    (content_type : Option String) (host : Option String) :
    UploadOutcome :=
  let switch_validation : Bool := upload_switch_validation host
  let env1 : Option String := if switch_validation then some "True" else w.env
  if bucket ∈ w.buckets then
    match w.files fname with
    | some contents =>
      let size := upload_size w fname contents
      { result := Except.ok (w.sentBytes == size)
        envDuring := env1
        envAfter := if switch_validation then none else env1
        sizeMeasured := some size
        finalHandlePos := some 0
        handleClosedAtReturn := true }
    | none =>
      { result := Except.error PyErr.ioError
        envDuring := env1
        envAfter := env1
        sizeMeasured := none
        finalHandlePos := none
        handleClosedAtReturn := true }
  else
    { result := Except.error PyErr.s3ResponseError
      envDuring := env1
      envAfter := env1
      sizeMeasured := none
      finalHandlePos := none
      handleClosedAtReturn := true }

/-- Module-level swap template _base_swap_tmp (lines 23-33), with the
single placeholder add_swap_file substituted as Python str() of the
integer (the dd block count, bs=1M). -/
def _base_swap_tmp (add_swap_file : Nat) : String :=
  "echo \"making swap file ...\"\nsudo chown ubuntu /mnt\nsudo dd if=/dev/zero of=/mnt/swapfile bs=1M count="
  ++ toString add_swap_file ++
  "\nsudo chown root:root /mnt/swapfile\nsudo chmod 600 /mnt/swapfile\nsudo mkswap /mnt/swapfile\nsudo swapon /mnt/swapfile\necho \"/mnt/swapfile swap swap defaults 0 0\" | sudo tee -a /etc/fstab\nsudo swapon -a\necho \"making swap file ... done\"\n"

/-- Tail of the module-level template _base_cmd_tmp (lines 17-21): the
cd-and-run block, with repo and cmd substituted. -/
def _cmd_tail (repo cmd : String) : String :=
  "(cd /home/ubuntu/github/" ++ repo
  ++ " \\\n  && git pull origin master \\\n  && echo \"updating code ... done\" \\\n  && "
  ++ cmd ++ ")\n"

/-- Module-level template _base_cmd_tmp (lines 11-21) with its six
placeholders substituted (Python str.format is literal-segment
concatenation; the association of the appends is semantically
irrelevant). -/
def _base_cmd_tmp (anaconda_path env install_pip swapfile_cmd repo cmd : String) : String :=
  "#!/bin/bash\n" ++
  ("echo \"updating code ...\"\nsource /home/ubuntu/.bashrc\nsource /home/ubuntu/"
    ++ anaconda_path ++ "/bin/activate " ++ env ++ "\n" ++ install_pip ++ "\n"
    ++ swapfile_cmd ++ "\n") ++
  _cmd_tail repo cmd

/-- Local computation of swapfile_cmd in make_start_script (lines
54-56).  add_swap_file is bool-or-int in Python with default False; it
is modelled as a Nat, 0 being falsy (False) and any other value truthy. -/
def swapfile_cmd_str (add_swap_file : Nat) : String :=
  if add_swap_file ≠ 0 then _base_swap_tmp add_swap_file else ""

/-- One pip install line of make_start_script (lines 61-62). -/
def pip_install_line (anaconda_path package : String) : String :=
  anaconda_path ++ "/bin/pip install " ++ package

/-- Local computation of install_pip in make_start_script (lines
57-63): the empty string for an empty list, otherwise one install line
per package joined by newlines. -/
def install_pip_str (anaconda_path : String) (install_pip : List String) : String :=
  if install_pip.length = 0 then ""
  else String.intercalate "\n"
    (install_pip.map (fun package => pip_install_line anaconda_path package))

/-- Embedding of make_start_script (lines 35-71): format the base
template with the computed install and swap sections.  The Python
defaults are install_pip=() and add_swap_file=False (modelled 0). -/
def make_start_script (cmd repo anaconda_path env : String)
    (install_pip : List String) (add_swap_file : Nat) : String :=
  _base_cmd_tmp anaconda_path env
    (install_pip_str anaconda_path install_pip)
    (swapfile_cmd_str add_swap_file) repo cmd

/-- Values of the parallel_args mapping of get_run_parallel_script: the
source expects plain strings for ordinary parameters and a list of
strings for the par_args parameter. -/
inductive PyVal where
  | str : String → PyVal
  | list : List String → PyVal
deriving DecidableEq

/-- Python expression (space).join(value) as used at line 169: joins the
elements of a list, and joins the individual characters when handed a
plain string. -/
def pyJoinSpace : PyVal → String
  | PyVal.str s => String.intercalate " " (s.data.map (fun c => Char.toString c))
  | PyVal.list xs => String.intercalate " " xs

/-- Conversion applied by str.format to a non-par_args value at line
167: a string formats as itself; a list formats as its Python repr
(modelled for element strings that need no escaping, the case the
source uses; \x27 is the ASCII apostrophe). -/
def pyFormatVal : PyVal → String
  | PyVal.str s => s
  | PyVal.list xs =>
      "[" ++ String.intercalate ", " (xs.map (fun x => "\x27" ++ x ++ "\x27")) ++ "]"

/-- Embedding of get_run_parallel_script (lines 161-172): one
--param value flag per entry of the mapping in iteration order, the
value being space-joined when the parameter is named par_args. -/
def get_run_parallel_script (parallel_args : List (String × PyVal)) : String :=
  "python run_parallel.py " ++ String.intercalate " "
    (parallel_args.map (fun pv =>
      "--" ++ pv.1 ++ " " ++
        (if pv.1 == "par_args" then pyJoinSpace pv.2 else pyFormatVal pv.2)))

/-- Flag builder written from the words of the spec (section 4.4): one
--name value flag per entry, the list-valued parameter space-joined
into one flag value and all other values appearing as given.  Used to
compare the source builder against the spec. -/
def run_parallel_flag_spec (pv : String × PyVal) : String :=
  "--" ++ pv.1 ++ " " ++
    (match pv.2 with
     | PyVal.list xs => String.intercalate " " xs
     | PyVal.str s => s)

/-- Everything of the composed script that precedes the install_pip
section (derived decomposition of _base_cmd_tmp, for stating the
section properties). -/
def mss_before_pip (anaconda_path env : String) : String :=
  "#!/bin/bash\necho \"updating code ...\"\nsource /home/ubuntu/.bashrc\nsource /home/ubuntu/"
  ++ anaconda_path ++ "/bin/activate " ++ env ++ "\n"

/-- Everything of the composed script that follows the install_pip
section (derived decomposition of _base_cmd_tmp). -/
def mss_after_pip (swapfile_cmd repo cmd : String) : String :=
  "\n" ++ swapfile_cmd ++ "\n" ++ _cmd_tail repo cmd

/-- Everything of the composed script that precedes the swapfile
section (derived decomposition of _base_cmd_tmp). -/
def mss_before_swap (anaconda_path env : String) (install_pip : List String) : String :=
  mss_before_pip anaconda_path env ++ install_pip_str anaconda_path install_pip ++ "\n"

/-- Everything of the composed script that follows the swapfile section
(derived decomposition of _base_cmd_tmp). -/
def mss_after_swap (repo cmd : String) : String :=
  "\n" ++ _cmd_tail repo cmd

/-- C4: for every combination of arguments, the composed bootstrap
script begins with the shebang line, and its last executed statement is
the caller-supplied command, run inside /home/ubuntu/github/repo (the
github/repo directory under the home of the ubuntu user) after
git pull origin master: the script is exactly the shebang, some middle
text, and the cd-and-run tail block that ends with the command. -/
theorem make_start_script_shebang_and_final_command
    (cmd repo anaconda_path env : String)
    (install_pip : List String) (add_swap_file : Nat) :
    ∃ mid : String,
      make_start_script cmd repo anaconda_path env install_pip add_swap_file
        = "#!/bin/bash\n" ++ mid ++ _cmd_tail repo cmd :=
  ⟨"echo \"updating code ...\"\nsource /home/ubuntu/.bashrc\nsource /home/ubuntu/"
    ++ anaconda_path ++ "/bin/activate " ++ env ++ "\n"
    ++ install_pip_str anaconda_path install_pip ++ "\n"
    ++ swapfile_cmd_str add_swap_file ++ "\n", rfl⟩

/-- C6: the composed script is exactly a prefix, the install_pip
section and a suffix; the section is empty for an empty package list,
and for N packages it is the newline-join of exactly N install lines,
one per package in order, each qualified by the activation path. -/
theorem make_start_script_pip_section
    (cmd repo anaconda_path env : String)
    (install_pip : List String) (add_swap_file : Nat) :
    (make_start_script cmd repo anaconda_path env install_pip add_swap_file
      = mss_before_pip anaconda_path env
        ++ install_pip_str anaconda_path install_pip
        ++ mss_after_pip (swapfile_cmd_str add_swap_file) repo cmd)
    ∧ install_pip_str anaconda_path [] = ""
    ∧ install_pip_str anaconda_path install_pip
        = String.intercalate "\n"
            (install_pip.map (fun package => pip_install_line anaconda_path package))
    ∧ (install_pip.map (fun package => pip_install_line anaconda_path package)).length
        = install_pip.length
    ∧ ∀ i : Fin install_pip.length,
        (install_pip.map (fun package => pip_install_line anaconda_path package))[i.val]?
          = some (anaconda_path ++ "/bin/pip install " ++ install_pip.get i) := by
  refine ⟨?_, rfl, ?_, install_pip.length_map _, ?_⟩
  · refine String.ext ?_
    simp only [make_start_script, _base_cmd_tmp, mss_before_pip, mss_after_pip,
      String.data_append, List.append_assoc]
    rfl
  · cases install_pip with
    | nil => rfl
    | cons p t => simp [install_pip_str]
  · intro i
    simp [List.getElem?_map, List.getElem?_eq_getElem, i.isLt, pip_install_line,
      List.get_eq_getElem]

/-- C7: the composed script is exactly a prefix, the swapfile section
and a suffix; the section is empty when the size argument is 0 (the
falsy Python default False), and for a nonzero size it is the fixed
swap-provisioning block with that exact size as the dd block count
(bs=1M, so the count is in megabytes). -/
theorem make_start_script_swap_section
    (cmd repo anaconda_path env : String)
    (install_pip : List String) (add_swap_file : Nat) :
    (make_start_script cmd repo anaconda_path env install_pip add_swap_file
      = mss_before_swap anaconda_path env install_pip
        ++ swapfile_cmd_str add_swap_file
        ++ mss_after_swap repo cmd)
    ∧ swapfile_cmd_str 0 = ""
    ∧ (add_swap_file ≠ 0 →
        swapfile_cmd_str add_swap_file = _base_swap_tmp add_swap_file)
    ∧ _base_swap_tmp add_swap_file
        = "echo \"making swap file ...\"\nsudo chown ubuntu /mnt\nsudo dd if=/dev/zero of=/mnt/swapfile bs=1M count="
          ++ toString add_swap_file ++
          "\nsudo chown root:root /mnt/swapfile\nsudo chmod 600 /mnt/swapfile\nsudo mkswap /mnt/swapfile\nsudo swapon /mnt/swapfile\necho \"/mnt/swapfile swap swap defaults 0 0\" | sudo tee -a /etc/fstab\nsudo swapon -a\necho \"making swap file ... done\"\n" := by
  refine ⟨?_, rfl, ?_, rfl⟩
  · refine String.ext ?_
    simp only [make_start_script, _base_cmd_tmp, mss_before_swap, mss_before_pip,
      mss_after_swap, _cmd_tail, String.data_append, List.append_assoc]
    rfl
  · intro h
    simp [swapfile_cmd_str, h]

/-- Closed witness for the hypotheses of the swap-section theorem at a
concrete input: three packages and a 2048 MB swap file. -/
theorem make_start_script_swap_section_witness :
    swapfile_cmd_str 2048 = _base_swap_tmp 2048 :=
  (make_start_script_swap_section "python train.py" "myrepo" "miniconda3" "py38"
    ["pkg_a"] 2048).2.2.1 (by decide)

/-- Shape expected of one entry of the parallel_args mapping by the
source (line 169): the par_args entry holds the list value, every other
entry holds a plain string. -/
def run_parallel_arg_wf (pv : String × PyVal) : Bool :=
  match pv.2 with
  | PyVal.list _ => pv.1 == "par_args"
  | PyVal.str _ => !(pv.1 == "par_args")

/-- C8: for every mapping whose entries have the expected shapes, the
built command line is python run_parallel.py followed by one
--name value flag per entry in the iteration order of the mapping,
the list value of par_args space-joined into one flag value and every
other value appearing as given (the flag builder written from the
words of the spec). -/
theorem get_run_parallel_script_flags
    (parallel_args : List (String × PyVal))
    (h : ∀ pv ∈ parallel_args, run_parallel_arg_wf pv = true) :
    get_run_parallel_script parallel_args
      = "python run_parallel.py " ++ String.intercalate " "
          (parallel_args.map run_parallel_flag_spec) := by
  unfold get_run_parallel_script
  congr 2
  apply List.map_congr_left
  intro pv hpv
  have hwf := h pv hpv
  unfold run_parallel_arg_wf at hwf
  cases hv : pv.2 with
  | str s =>
    rw [hv] at hwf
    simp only [Bool.not_eq_true'] at hwf
    simp [run_parallel_flag_spec, hv, hwf, pyFormatVal]
  | list xs =>
    rw [hv] at hwf
    simp only [beq_iff_eq] at hwf
    simp [run_parallel_flag_spec, hv, hwf, pyJoinSpace]

/-- Closed witness for the flag-building theorem at a concrete mapping
with one ordinary entry and one par_args entry. -/
theorem get_run_parallel_script_flags_witness :
    get_run_parallel_script
        [("script", PyVal.str "job.py"), ("par_args", PyVal.list ["a", "b"])]
      = "python run_parallel.py " ++ String.intercalate " "
          (List.map run_parallel_flag_spec
            [("script", PyVal.str "job.py"), ("par_args", PyVal.list ["a", "b"])]) :=
  get_run_parallel_script_flags _ (by decide)

/-- C2: download_from_s3 returns True exactly when the key exists in
the bucket, and the local filesystem changes exactly on the branch
where the key exists and dry_run is False, where the destination path
now holds the bytes of the object; on the key-absent and dry-run
branches no file is written. -/
theorem download_from_s3_result_and_files
    (w : DownloadWorld) (akid skey bucket fname key : String)
    (dry_run : Bool) (host : Host) :
    (download_from_s3 w akid skey bucket fname key dry_run host).ret
        = (w.objects bucket key).isSome
    ∧ (download_from_s3 w akid skey bucket fname key dry_run host).files
        = (match w.objects bucket key, dry_run with
           | some bytes, false => fun f => if f = fname then some bytes else w.files f
           | _, _ => w.files) := by
  unfold download_from_s3
  cases hobj : w.objects bucket key with
  | some bytes => cases dry_run <;> simp
  | none => cases dry_run <;> simp

/-- Example upload world where the SDK reports exactly the size of the
local file as sent. -/
def upWorldA : UploadWorld :=
  { buckets := ["bkt"]
    files := fun f => if f = "data.bin" then some [7, 7, 7] else none
    env := none
    fstatSize := fun _ => 0
    sentBytes := 3 }

/-- Example upload world where the SDK reports two bytes more than the
size of the local file. -/
def upWorldB : UploadWorld :=
  { buckets := ["bkt"]
    files := fun f => if f = "data.bin" then some [7, 7, 7] else none
    env := none
    fstatSize := fun _ => 0
    sentBytes := 5 }

/-- C3: on the normal path (existing bucket, readable local file)
upload_to_s3 returns the boolean comparison of the reported sent byte
count with the measured size of the local file: True exactly on
equality, and on any mismatch the ordinary return value False, no
exception. -/
theorem upload_to_s3_success_iff_size_match
    (w : UploadWorld) (akid skey fname bucket key : String)
    (md5 : Option String) (rr : Bool) (ct : Option String)
    (host : Option String) (contents : List Nat)
    (hb : bucket ∈ w.buckets) (hf : w.files fname = some contents) :
    (upload_to_s3 w akid skey fname bucket key md5 rr ct host).result
        = Except.ok (w.sentBytes == contents.length)
    ∧ (w.sentBytes ≠ contents.length →
        (upload_to_s3 w akid skey fname bucket key md5 rr ct host).result
          = Except.ok false) := by
  unfold upload_to_s3
  rw [if_pos hb, hf]
  refine ⟨rfl, fun hne => ?_⟩
  simp [upload_size, str_fileno, hne]

/-- Closed witness for the upload success condition: with three bytes
on disk, a reported count of three yields True and a reported count of
five yields False, both as ordinary return values. -/
theorem upload_to_s3_success_iff_size_match_witness :
    ((upload_to_s3 upWorldA "id" "sec" "data.bin" "bkt" "k" none false none
        (some "s3.eu-central-1.amazonaws.com")).result
      = Except.ok (upWorldA.sentBytes == ([7, 7, 7] : List Nat).length))
    ∧ ((upload_to_s3 upWorldB "id" "sec" "data.bin" "bkt" "k" none false none
        (some "s3.eu-central-1.amazonaws.com")).result
      = Except.ok false) :=
  ⟨(upload_to_s3_success_iff_size_match upWorldA "id" "sec" "data.bin" "bkt" "k"
      none false none (some "s3.eu-central-1.amazonaws.com") [7, 7, 7]
      (by decide) (by decide)).1,
   (upload_to_s3_success_iff_size_match upWorldB "id" "sec" "data.bin" "bkt" "k"
      none false none (some "s3.eu-central-1.amazonaws.com") [7, 7, 7]
      (by decide) (by decide)).2 (by decide)⟩

/-- Example world for the download claims: bucket mybucket holds key
mykey with three bytes; the flag starts unset and the local filesystem
is empty. -/
def dlWorld : DownloadWorld :=
  { objects := fun b k => if b = "mybucket" ∧ k = "mykey" then some [0, 1, 2] else none
    files := fun _ => none
    env := none }

/-- C9: when the host carries no eu-central marker (a plain string
without the marker, Python None, or the NoHostProvided sentinel for the
download; a marker-free string or None for the upload), neither call
ever touches S3_USE_SIGV4: its value right after the toggle point and
its value when the call ends both equal the value the call started
with. -/
theorem no_marker_env_untouched
    (w : DownloadWorld) (akid skey bucket fname key : String)
    (dry_run : Bool) (host : Host)
    (w2 : UploadWorld) (akid2 skey2 fname2 bucket2 key2 : String)
    (md5 : Option String) (rr : Bool) (ct : Option String)
    (host2 : Option String)
    (hd : download_switch_validation host = false)
    (hu : upload_switch_validation host2 = false) :
    ((download_from_s3 w akid skey bucket fname key dry_run host).envDuring = w.env
      ∧ (download_from_s3 w akid skey bucket fname key dry_run host).envAfter = w.env)
    ∧ ((upload_to_s3 w2 akid2 skey2 fname2 bucket2 key2 md5 rr ct host2).envDuring = w2.env
      ∧ (upload_to_s3 w2 akid2 skey2 fname2 bucket2 key2 md5 rr ct host2).envAfter = w2.env) := by
  constructor
  · unfold download_from_s3
    rw [hd]
    cases w.objects bucket key <;> cases dry_run <;> simp
  · unfold upload_to_s3
    rw [hu]
    by_cases hb : bucket2 ∈ w2.buckets
    · rw [if_pos hb]
      cases w2.files fname2 <;> simp
    · rw [if_neg hb]
      simp

/-- Closed witness for the untouched-environment theorem: a download
from the default host s3.amazonaws.com and an upload with host None
leave the flag value of dlWorld and upWorldA (unset) unchanged. -/
theorem no_marker_env_untouched_witness :
    ((download_from_s3 dlWorld "id" "sec" "mybucket" "out.bin" "mykey" false
        (Host.str "s3.amazonaws.com")).envDuring = dlWorld.env
      ∧ (download_from_s3 dlWorld "id" "sec" "mybucket" "out.bin" "mykey" false
        (Host.str "s3.amazonaws.com")).envAfter = dlWorld.env)
    ∧ ((upload_to_s3 upWorldA "id" "sec" "data.bin" "bkt" "k" none false none
        none).envDuring = upWorldA.env
      ∧ (upload_to_s3 upWorldA "id" "sec" "data.bin" "bkt" "k" none false none
        none).envAfter = upWorldA.env) :=
  no_marker_env_untouched dlWorld "id" "sec" "mybucket" "out.bin" "mykey" false
    (Host.str "s3.amazonaws.com") upWorldA "id" "sec" "data.bin" "bkt" "k"
    none false none none (by decide) (by decide)

/-- C1 counterexample: a download from an eu-central host with an
existing key and dry_run=True returns through line 97, which skips the
cleanup of lines 101-102, so S3_USE_SIGV4 is still set when the call
returns: the claimed property (flag unset after every return, the
dry-run return included) is false at this input. -/
theorem download_dry_run_leaks_signing_flag :
    (download_from_s3 dlWorld "id" "sec" "mybucket" "out.bin" "mykey" true
        (Host.str "s3.eu-central-1.amazonaws.com")).envAfter = some "True"
    ∧ ¬((download_from_s3 dlWorld "id" "sec" "mybucket" "out.bin" "mykey" true
        (Host.str "s3.eu-central-1.amazonaws.com")).envAfter = none) := by
  decide

/-- C1 amended: with an eu-central host the flag is set (to the string
True) during the call, and it is unset when the call returns on every
normal return path except the dry-run return of download_from_s3 with
an existing key: both download return paths that reach the cleanup
(key absent, or key present without dry run), and the normal return of
upload_to_s3 (existing bucket, readable file). -/
theorem signing_flag_transient_amended
    (w : DownloadWorld) (akid skey bucket fname key : String)
    (dry_run : Bool) (host : Host)
    (w2 : UploadWorld) (akid2 skey2 fname2 bucket2 key2 : String)
    (md5 : Option String) (rr : Bool) (ct : Option String)
    (host2 : Option String) (contents : List Nat)
    (hd : download_switch_validation host = true)
    (hu : upload_switch_validation host2 = true)
    (hb : bucket2 ∈ w2.buckets) (hf : w2.files fname2 = some contents) :
    ((download_from_s3 w akid skey bucket fname key dry_run host).envDuring = some "True")
    ∧ (¬((w.objects bucket key).isSome = true ∧ dry_run = true) →
        (download_from_s3 w akid skey bucket fname key dry_run host).envAfter = none)
    ∧ ((upload_to_s3 w2 akid2 skey2 fname2 bucket2 key2 md5 rr ct host2).envDuring = some "True")
    ∧ ((upload_to_s3 w2 akid2 skey2 fname2 bucket2 key2 md5 rr ct host2).envAfter = none) := by
  refine ⟨?_, ?_, ?_, ?_⟩
  · unfold download_from_s3
    rw [hd]
    cases w.objects bucket key <;> cases dry_run <;> simp
  · intro hnot
    unfold download_from_s3
    rw [hd]
    cases hobj : w.objects bucket key with
    | some bytes =>
      cases dry_run with
      | true => exact absurd ⟨by rw [hobj]; rfl, rfl⟩ hnot
      | false => simp
    | none => cases dry_run <;> simp
  · unfold upload_to_s3
    rw [hu, if_pos hb, hf]
    rfl
  · unfold upload_to_s3
    rw [hu, if_pos hb, hf]
    rfl

/-- Closed witness for the amended transient-flag theorem: an
eu-central download of an absent key and an eu-central upload both end
with the flag unset, and both had it set during the call. -/
theorem signing_flag_transient_amended_witness :
    ((download_from_s3 dlWorld "id" "sec" "mybucket" "out.bin" "nokey" false
        (Host.str "s3.eu-central-1.amazonaws.com")).envDuring = some "True")
    ∧ (¬((dlWorld.objects "mybucket" "nokey").isSome = true ∧ false = true) →
        (download_from_s3 dlWorld "id" "sec" "mybucket" "out.bin" "nokey" false
          (Host.str "s3.eu-central-1.amazonaws.com")).envAfter = none)
    ∧ ((upload_to_s3 upWorldA "id" "sec" "data.bin" "bkt" "k" none false none
        (some "s3.eu-central-1.amazonaws.com")).envDuring = some "True")
    ∧ ((upload_to_s3 upWorldA "id" "sec" "data.bin" "bkt" "k" none false none
        (some "s3.eu-central-1.amazonaws.com")).envAfter = none) :=
  signing_flag_transient_amended dlWorld "id" "sec" "mybucket" "out.bin" "nokey"
    false (Host.str "s3.eu-central-1.amazonaws.com") upWorldA "id" "sec"
    "data.bin" "bkt" "k" none false none
    (some "s3.eu-central-1.amazonaws.com") [7, 7, 7]
    (by decide) (by decide) (by decide) (by decide)

/-- C5 counterexample: the file handle used by upload_to_s3 is opened
inside the function from the path and the with-statement of line 139
closes it before the function returns, so at this concrete input no
handle remains usable by the caller after the call returns, contrary
to the claimed purpose of the final seek. -/
theorem upload_handle_closed_at_return :
    (upload_to_s3 upWorldA "id" "sec" "data.bin" "bkt" "k" none false none
        (some "s3.eu-central-1.amazonaws.com")).handleClosedAtReturn = true := by
  decide

/-- C5 amended: on the normal upload path the size is determined by
first attempting the descriptor-size query, which is made on the path
string fname and therefore always raises, so the size is always the
seek-to-end measurement (the byte length of the file); the internally
opened handle is rewound to position 0 before the with-block closes
it, and it is closed once the call has returned, so no handle remains
for the caller. -/
theorem upload_size_and_rewind_amended
    (w : UploadWorld) (akid skey fname bucket key : String)
    (md5 : Option String) (rr : Bool) (ct : Option String)
    (host : Option String) (contents : List Nat)
    (hb : bucket ∈ w.buckets) (hf : w.files fname = some contents) :
    (upload_to_s3 w akid skey fname bucket key md5 rr ct host).sizeMeasured
        = some contents.length
    ∧ (upload_to_s3 w akid skey fname bucket key md5 rr ct host).finalHandlePos
        = some 0
    ∧ (upload_to_s3 w akid skey fname bucket key md5 rr ct host).handleClosedAtReturn
        = true := by
  unfold upload_to_s3
  rw [if_pos hb, hf]
  exact ⟨rfl, rfl, rfl⟩

/-- Closed witness for the amended size-and-rewind theorem at the
concrete upload world with a three-byte file. -/
theorem upload_size_and_rewind_amended_witness :
    (upload_to_s3 upWorldA "id" "sec" "data.bin" "bkt" "k" none false none
        (some "s3.eu-central-1.amazonaws.com")).sizeMeasured
        = some ([7, 7, 7] : List Nat).length
    ∧ (upload_to_s3 upWorldA "id" "sec" "data.bin" "bkt" "k" none false none
        (some "s3.eu-central-1.amazonaws.com")).finalHandlePos = some 0
    ∧ (upload_to_s3 upWorldA "id" "sec" "data.bin" "bkt" "k" none false none
        (some "s3.eu-central-1.amazonaws.com")).handleClosedAtReturn = true :=
  upload_size_and_rewind_amended upWorldA "id" "sec" "data.bin" "bkt" "k"
    none false none (some "s3.eu-central-1.amazonaws.com") [7, 7, 7]
    (by decide) (by decide)

/-- C10: the primary size query of upload_to_s3 calls fileno() on the
fname argument, a path string, so it always raises AttributeError, the
bare except branch of line 142 is always taken, and the size used for
the success comparison is always the seek-to-end measurement, the byte
length of the file contents. -/
theorem upload_primary_size_query_always_raises
    (w : UploadWorld) (akid skey fname bucket key : String)
    (md5 : Option String) (rr : Bool) (ct : Option String)
    (host : Option String) (contents : List Nat)
    (hb : bucket ∈ w.buckets) (hf : w.files fname = some contents) :
    str_fileno fname = Except.error PyErr.attributeError
    ∧ upload_size w fname contents = contents.length
    ∧ (upload_to_s3 w akid skey fname bucket key md5 rr ct host).sizeMeasured
        = some contents.length := by
  refine ⟨rfl, rfl, ?_⟩
  unfold upload_to_s3
  rw [if_pos hb, hf]
  rfl

/-- Closed witness for the always-raising primary size query at the
concrete upload world with a mismatching reported byte count. -/
theorem upload_primary_size_query_always_raises_witness :
    str_fileno "data.bin" = Except.error PyErr.attributeError
    ∧ upload_size upWorldB "data.bin" [7, 7, 7] = ([7, 7, 7] : List Nat).length
    ∧ (upload_to_s3 upWorldB "id" "sec" "data.bin" "bkt" "k" none false none
        (some "s3.eu-central-1.amazonaws.com")).sizeMeasured
        = some ([7, 7, 7] : List Nat).length :=
  upload_primary_size_query_always_raises upWorldB "id" "sec" "data.bin" "bkt"
    "k" none false none (some "s3.eu-central-1.amazonaws.com") [7, 7, 7]
    (by decide) (by decide)
